import Mathlib

/-!
# timesyncwait: wait until the kernel realtime clock is synchronized

A shallow embedding of `src/timesyncwait.c` (`state_s`, `io_handler`, `main`).

The program is single threaded.  Every result handed back by the operating
system or by the sd-event library is an input of the model: `PollOS` holds the
results one poll cycle receives, `MainOS` those of one whole run.  Everything
the program does to the outside is recorded: the calls that touch a timer
descriptor or an event source (`Call`), the lines written to standard error
(`LogLine`), and the exit request made on the event loop.

C `int` values are `Int`; the program does no arithmetic on them apart from
comparisons, the negation of `errno` and the formatting of the time stamp.
-/

namespace TimeSyncWait

/-! ## Constants of the system headers -/

/-- Value of `TIME_ERROR` in `<sys/timex.h>`: the clock is not synchronized. -/
def TIME_ERROR : Int := 5

/-- Value of `STA_NANO` in `<sys/timex.h>`: the time stamp has nanosecond resolution. -/
def STA_NANO : Int := 0x2000

/-- Value of `EXIT_SUCCESS` in `<stdlib.h>`. -/
def EXIT_SUCCESS : Int := 0

/-- Value of `EXIT_FAILURE` in `<stdlib.h>`. -/
def EXIT_FAILURE : Int := 1

/-- The conversion `(int)x` of a wider signed value on a two's complement machine. -/
def toInt32 (x : Int) : Int := (x + 2 ^ 31) % 2 ^ 32 - 2 ^ 31

/-! ## Data model -/

/-- The fields of `struct state_s` that the program reads.  `event_source` is
`none` for a null pointer and otherwise names the descriptor the io event
source watches.  The `event` field is the loop object; what the program does
to it is the exit request kept in `Run.exit_code`. -/
structure state_s where
  fd : Int
  adjtime_state : Int
  event_source : Option Int
  deriving DecidableEq

/-- A line written to standard error, by the format string that produced it. -/
inductive LogLine where
  /-- The line `adjtime state %d status %x time %u.%06u`. -/
  | adjtime (state status sec frac : Int)
  /-- The line `event loop terminated with %d`. -/
  | loop_terminated (rc : Int)
  /-- The line `event loop terminated without synchronizing`. -/
  | without_sync
  deriving DecidableEq

/-- The status code a diagnostic line prints with `%d`, if it prints one. -/
def LogLine.code : LogLine → Option Int
  | .adjtime state _ _ _ => some state
  | .loop_terminated rc => some rc
  | .without_sync => none

/-- The calls of the program that create, use or release a timer descriptor or
an event source, and the synchronization query, each with the value the
operating system returned. -/
inductive Call where
  /-- The call `sd_event_source_unref(src)`. -/
  | source_unref (src : Option Int)
  /-- The call `close(fd)`. -/
  | close (fd : Int)
  /-- The call `timerfd_create(...)` and its return value. -/
  | timerfd_create (ret : Int)
  /-- The call `timerfd_settime(fd, ...)` and its return value. -/
  | timerfd_settime (fd ret : Int)
  /-- The call `adjtimex(&tx)` and its return value. -/
  | adjtimex (ret : Int)
  /-- The call `sd_event_add_io(event, &event_source, fd, EPOLLIN, ...)` and its return value. -/
  | add_io (fd ret : Int)
  deriving DecidableEq

/-- What one poll cycle receives from the operating system and from sd-event. -/
structure PollOS where
  timerfd_create : Int
  timerfd_settime : Int
  adjtimex : Int
  tx_status : Int
  tx_sec : Int
  tx_usec : Int
  sd_event_add_io : Int
  deriving DecidableEq

/-- The program state together with everything it has done so far. -/
structure Run where
  state : state_s
  /-- The code of the last `sd_event_exit(event, code)`, if there was one. -/
  exit_code : Option Int
  stderr : List LogLine
  calls : List Call
  deriving DecidableEq

/-- Record one call. -/
def Run.call (w : Run) (c : Call) : Run := { w with calls := w.calls ++ [c] }

/-- Write one line to standard error. -/
def Run.log (w : Run) (l : LogLine) : Run := { w with stderr := w.stderr ++ [l] }

/-- The call `sd_event_exit(event, code)`. -/
def Run.sd_event_exit (w : Run) (code : Int) : Run := { w with exit_code := some code }

/-! ## The poll cycle -/

/-- The function `io_handler` of `timesyncwait.c`, lines 46-96. -/
def io_handler (w : Run) (os : PollOS) : Run × Int :=
  -- sp->event_source = sd_event_source_unref(sp->event_source);
  let w1 : Run := { w.call (.source_unref w.state.event_source) with
    state := { w.state with event_source := none } }
  -- if (0 <= sp->fd) (void) close(sp->fd);
  let w2 : Run := if 0 ≤ w1.state.fd then w1.call (.close w1.state.fd) else w1
  -- sp->fd = timerfd_create(CLOCK_REALTIME, TFD_NONBLOCK | TFD_CLOEXEC);
  let w3 : Run := { w2.call (.timerfd_create os.timerfd_create) with
    state := { w2.state with fd := os.timerfd_create } }
  -- int rc = 0; if (0 <= sp->fd) rc = timerfd_settime(sp->fd, ...);
  let w4 : Run :=
    if 0 ≤ w3.state.fd then w3.call (.timerfd_settime w3.state.fd os.timerfd_settime) else w3
  let rc4 : Int := if 0 ≤ w3.state.fd then os.timerfd_settime else 0
  -- if (0 == rc) { sp->adjtime_state = rc = adjtimex(&tx); if (0 <= rc) fprintf(...); }
  let w5 : Run :=
    if rc4 = 0 then
      let wq : Run := { w4.call (.adjtimex os.adjtimex) with
        state := { w4.state with adjtime_state := os.adjtimex } }
      if 0 ≤ os.adjtimex then
        wq.log (.adjtime wq.state.adjtime_state os.tx_status (toInt32 os.tx_sec)
          (Int.tdiv (toInt32 os.tx_usec) (if Int.land STA_NANO os.tx_status ≠ 0 then 1000 else 1)))
      else wq
    else w4
  let rc5 : Int := if rc4 = 0 then os.adjtimex else rc4
  if TIME_ERROR = w5.state.adjtime_state then
    -- rc = sd_event_add_io(sp->event, &sp->event_source, sp->fd, EPOLLIN, io_handler, sp);
    let rc6 : Int := os.sd_event_add_io
    let w6 : Run := { w5.call (.add_io w5.state.fd rc6) with
      state := { w5.state with
        event_source := if 0 ≤ rc6 then some w5.state.fd else w5.state.event_source } }
    -- if (0 > rc) sd_event_exit(sp->event, rc); return rc;
    if 0 > rc6 then (w6.sd_event_exit rc6, rc6) else (w6, rc6)
  else if 0 ≤ w5.state.adjtime_state then
    -- sd_event_exit(sp->event, 0); return 0;
    (w5.sd_event_exit 0, 0)
  else
    -- if (0 > rc) sd_event_exit(sp->event, rc); return rc;
    if 0 > rc5 then (w5.sd_event_exit rc5, rc5) else (w5, rc5)

/-! ## The event loop -/

/-- What sd-event can deliver while the program is suspended in `sd_event_loop`. -/
inductive LoopEvent where
  /-- The descriptor watched by the io event source is readable (the clock was
  set); the handler then runs and receives these results. -/
  | io (os : PollOS)
  /-- The signal `SIGTERM` or `SIGINT` arrives. -/
  | signal
  /-- The watchdog timer of the loop ticks. -/
  | watchdog
  /-- The call `sd_event_run` fails with this code. -/
  | error (e : Int)
  deriving DecidableEq

/-- The call `sd_event_loop(state.event)`, as sd-event documents it: the loop
runs until an exit was requested and then returns the requested code.  An io
event is dispatched to `io_handler` when an io event source is registered.  The
signal sources were added with a null handler and null userdata, so a signal
requests exit with code 0.  A failure of `sd_event_run` makes the loop return
that negative code.  The second component is `none` when the events end while
the loop is still waiting: the program stays suspended. -/
def sd_event_loop : Run → List LoopEvent → Run × Option Int
  | w, [] => (w, w.exit_code)
  | w, ev :: evs =>
    match w.exit_code with
    | some c => (w, some c)
    | none =>
      match ev with
      | .io os =>
        if w.state.event_source.isSome then sd_event_loop (io_handler w os).1 evs
        else sd_event_loop w evs
      | .signal => sd_event_loop (w.sd_event_exit 0) evs
      | .watchdog => sd_event_loop w evs
      | .error e => if e < 0 then (w, some e) else sd_event_loop w evs

/-! ## The main routine -/

/-- What one run of the program receives: the results of the setup calls, of
the first poll cycle, and the events the loop delivers. -/
structure MainOS where
  sd_event_default : Int
  sigemptyset : Int
  sigaddset_term : Int
  sigaddset_int : Int
  sigprocmask : Int
  errno : Int
  add_signal_term : Int
  add_signal_int : Int
  set_watchdog : Int
  first : PollOS
  events : List LoopEvent
  deriving DecidableEq

/-- The outcome of one run.  `status` is the value `main` returns, `none` when
the program is still suspended in the event loop; `loop_rc` is what
`sd_event_loop` returned. -/
structure Outcome where
  status : Option Int
  loop_entered : Bool
  loop_rc : Option Int
  run : Run
  deriving DecidableEq

/-- The value of `state` at its declaration: `.fd = -1`, every other field zero. -/
def state_init : Run :=
  { state := { fd := -1, adjtime_state := 0, event_source := none },
    exit_code := none, stderr := [], calls := [] }

/-- Lines 107-120 of `main`: the value of `rc` when the chain of setup calls
stops, or after `sd_event_set_watchdog` when none of them failed. -/
def main_setup (os : MainOS) : Int :=
  -- rc = sd_event_default(&state.event);
  let rc0 : Int := os.sd_event_default
  -- if (0 <= rc) { if (... one of the four calls is negative ...) rc = -errno; }
  let rc1 : Int :=
    if 0 ≤ rc0 then
      if 0 > os.sigemptyset ∨ 0 > os.sigaddset_term ∨ 0 > os.sigaddset_int ∨ 0 > os.sigprocmask
      then -os.errno else rc0
    else rc0
  if 0 ≤ rc1 then
    if 0 ≤ os.add_signal_term then
      if 0 ≤ os.add_signal_int then os.set_watchdog else os.add_signal_int
    else os.add_signal_term
  else rc1

/-- Lines 132-135 of `main`: release the descriptor and the event source and
turn `rc` into the exit status. -/
def main_exit (w : Run) (rc : Int) (entered : Bool) (loop_rc : Option Int) : Outcome :=
  -- (void)close(state.fd);
  let w1 : Run := w.call (.close w.state.fd)
  -- state.event_source = sd_event_source_unref(state.event_source);
  let w2 : Run := { w1.call (.source_unref w1.state.event_source) with
    state := { w1.state with event_source := none } }
  -- return (0 > rc) ? EXIT_FAILURE : EXIT_SUCCESS;
  { status := some (if 0 > rc then EXIT_FAILURE else EXIT_SUCCESS),
    loop_entered := entered, loop_rc := loop_rc, run := w2 }

/-- The function `main` of `timesyncwait.c`, lines 98-136. -/
def main (os : MainOS) : Outcome :=
  if 0 ≤ main_setup os then
    -- && (0 <= (rc = io_handler(0, -1, 0, &state)))
    let r := io_handler state_init os.first
    -- && (TIME_ERROR == state.adjtime_state)
    if 0 ≤ r.2 ∧ TIME_ERROR = r.1.state.adjtime_state then
      -- rc = sd_event_loop(state.event);
      match sd_event_loop r.1 os.events with
      | (w, none) => { status := none, loop_entered := true, loop_rc := none, run := w }
      | (w, some rc) =>
        if 0 > rc then
          main_exit (w.log (.loop_terminated rc)) rc true (some rc)
        else if TIME_ERROR = w.state.adjtime_state then
          main_exit (w.log .without_sync) (-1) true (some rc)
        else main_exit w rc true (some rc)
    else main_exit r.1 r.2 false none
  else main_exit state_init (main_setup os) false none

/-! ## Resources -/

/-- A return value of `adjtimex` that the program takes as synchronized. -/
def synchronized (r : Int) : Prop := 0 ≤ r ∧ r ≠ TIME_ERROR

instance (r : Int) : Decidable (synchronized r) := by unfold synchronized; infer_instance

/-- The call is a successful registration of the io event source. -/
def Call.registers : Call → Bool
  | .add_io _ ret => decide (0 ≤ ret)
  | _ => false

/-- The call is an `sd_event_add_io`, successful or not. -/
def Call.isAddIo : Call → Bool
  | .add_io _ _ => true
  | _ => false

/-- The call is a `timerfd_create`. -/
def Call.isCreate : Call → Bool
  | .timerfd_create _ => true
  | _ => false

/-- The call is a `close`. -/
def Call.isClose : Call → Bool
  | .close _ => true
  | _ => false

/-- The call is an `adjtimex`. -/
def Call.isQuery : Call → Bool
  | .adjtimex _ => true
  | _ => false

/-- A successful poll cycle setup: the timer was created and armed. -/
def PollOS.timer_ok (os : PollOS) : Prop := 0 ≤ os.timerfd_create ∧ os.timerfd_settime = 0

instance (os : PollOS) : Decidable os.timer_ok := by unfold PollOS.timer_ok; infer_instance

/-! ## The parts of the poll cycle

`io_handler` is the composition of the three parts below (`io_handler_eq`);
`poll_calls`, `poll_lines`, `poll_rc` and `poll_exit` describe its result field
by field (`io_handler_calls` and the lemmas after it). -/

/-- Lines 63-70 of `io_handler`: release, create and arm the timer. -/
def io_timer (w : Run) (os : PollOS) : Run × Int :=
  let w1 : Run := { w.call (.source_unref w.state.event_source) with
    state := { w.state with event_source := none } }
  let w2 : Run := if 0 ≤ w1.state.fd then w1.call (.close w1.state.fd) else w1
  let w3 : Run := { w2.call (.timerfd_create os.timerfd_create) with
    state := { w2.state with fd := os.timerfd_create } }
  (if 0 ≤ w3.state.fd then w3.call (.timerfd_settime w3.state.fd os.timerfd_settime) else w3,
   if 0 ≤ w3.state.fd then os.timerfd_settime else 0)

/-- Lines 72-81 of `io_handler`: the query and its diagnostic line. -/
def io_query (p : Run × Int) (os : PollOS) : Run × Int :=
  (if p.2 = 0 then
      let wq : Run := { p.1.call (.adjtimex os.adjtimex) with
        state := { p.1.state with adjtime_state := os.adjtimex } }
      if 0 ≤ os.adjtimex then
        wq.log (.adjtime wq.state.adjtime_state os.tx_status (toInt32 os.tx_sec)
          (Int.tdiv (toInt32 os.tx_usec) (if Int.land STA_NANO os.tx_status ≠ 0 then 1000 else 1)))
      else wq
    else p.1,
   if p.2 = 0 then os.adjtimex else p.2)

/-- Lines 82-95 of `io_handler`: the branch on the recorded status. -/
def io_branch (p : Run × Int) (os : PollOS) : Run × Int :=
  if TIME_ERROR = p.1.state.adjtime_state then
    let rc6 : Int := os.sd_event_add_io
    let w6 : Run := { p.1.call (.add_io p.1.state.fd rc6) with
      state := { p.1.state with
        event_source := if 0 ≤ rc6 then some p.1.state.fd else p.1.state.event_source } }
    if 0 > rc6 then (w6.sd_event_exit rc6, rc6) else (w6, rc6)
  else if 0 ≤ p.1.state.adjtime_state then
    (p.1.sd_event_exit 0, 0)
  else
    if 0 > p.2 then (p.1.sd_event_exit p.2, p.2) else (p.1, p.2)

/-- The poll cycle reaches the query: `rc` is still 0 after the timer setup. -/
def PollOS.queried (os : PollOS) : Prop :=
  (if 0 ≤ os.timerfd_create then os.timerfd_settime else 0) = 0

instance (os : PollOS) : Decidable os.queried := by unfold PollOS.queried; infer_instance

/-- The value of `sp->adjtime_state` that the branch of the poll cycle reads. -/
def poll_adjtime (sp : state_s) (os : PollOS) : Int :=
  if os.queried then os.adjtimex else sp.adjtime_state

/-- The calls of one poll cycle, in order. -/
def poll_calls (sp : state_s) (os : PollOS) : List Call :=
  [Call.source_unref sp.event_source]
    ++ (if 0 ≤ sp.fd then [Call.close sp.fd] else [])
    ++ [Call.timerfd_create os.timerfd_create]
    ++ (if 0 ≤ os.timerfd_create then [Call.timerfd_settime os.timerfd_create os.timerfd_settime]
        else [])
    ++ (if os.queried then [Call.adjtimex os.adjtimex] else [])
    ++ (if TIME_ERROR = poll_adjtime sp os then [Call.add_io os.timerfd_create os.sd_event_add_io]
        else [])

/-- The lines one poll cycle writes. -/
def poll_lines (os : PollOS) : List LogLine :=
  if os.queried ∧ 0 ≤ os.adjtimex then
    [LogLine.adjtime os.adjtimex os.tx_status (toInt32 os.tx_sec)
      (Int.tdiv (toInt32 os.tx_usec) (if Int.land STA_NANO os.tx_status ≠ 0 then 1000 else 1))]
  else []

/-- The value of `rc` a poll cycle returns. -/
def poll_rc (sp : state_s) (os : PollOS) : Int :=
  if TIME_ERROR = poll_adjtime sp os then os.sd_event_add_io
  else if 0 ≤ poll_adjtime sp os then 0
  else if os.queried then os.adjtimex else os.timerfd_settime

/-- The exit request after a poll cycle. -/
def poll_exit (old : Option Int) (sp : state_s) (os : PollOS) : Option Int :=
  if TIME_ERROR = poll_adjtime sp os then
    if 0 > os.sd_event_add_io then some os.sd_event_add_io else old
  else if 0 ≤ poll_adjtime sp os then some 0
  else if 0 > poll_rc sp os then some (poll_rc sp os) else old

/-- No `sd_event_add_io` and no `timerfd_create` follows a query that returned
a synchronized code. -/
def Quiet : List Call → Prop
  | [] => True
  | c :: cs =>
    (∀ r, c = Call.adjtimex r → synchronized r →
      ∀ d ∈ cs, d.isAddIo = false ∧ d.isCreate = false) ∧ Quiet cs

/-- The status code of an `adjtime state` line. -/
def LogLine.queryCode : LogLine → Option Int
  | .adjtime state _ _ _ => some state
  | _ => none

/-- The return value of a query that did not fail. -/
def Call.queryCode : Call → Option Int
  | .adjtimex r => if 0 ≤ r then some r else none
  | _ => none

/-- Setup calls that all succeed. -/
def MainOS.setup_ok (os : MainOS) : Prop :=
  0 ≤ os.sd_event_default ∧ 0 ≤ os.sigemptyset ∧ 0 ≤ os.sigaddset_term ∧ 0 ≤ os.sigaddset_int
    ∧ 0 ≤ os.sigprocmask ∧ 0 ≤ os.add_signal_term ∧ 0 ≤ os.add_signal_int ∧ 0 ≤ os.set_watchdog

instance (os : MainOS) : Decidable os.setup_ok := by unfold MainOS.setup_ok; infer_instance

/-- A poll cycle in which every call succeeds and the query returns `a`. -/
def PollOS.ok_with (os : PollOS) (a : Int) : Prop :=
  os.timer_ok ∧ os.adjtimex = a ∧ 0 ≤ os.sd_event_add_io

instance (os : PollOS) (a : Int) : Decidable (os.ok_with a) := by
  unfold PollOS.ok_with; infer_instance

/-! ## Invariants of a run -/

/-- A query that failed with `c` left the exit request `c`, a query that
returned a synchronized code left the exit request 0, and nothing was armed
after a synchronized query. -/
def QueryInv (w : Run) : Prop :=
  (∀ c, c < 0 → Call.adjtimex c ∈ w.calls → w.exit_code = some c)
    ∧ (∀ r, synchronized r → Call.adjtimex r ∈ w.calls → w.exit_code = some 0)
    ∧ Quiet w.calls

/-- While the loop waits the recorded status is `TIME_ERROR`; after a request
to exit with a non-negative code it still is, unless a query returned a
synchronized code. -/
def WaitInv (w : Run) : Prop :=
  (w.exit_code = none → w.state.adjtime_state = TIME_ERROR)
    ∧ (∀ c, w.exit_code = some c → 0 ≤ c →
        w.state.adjtime_state = TIME_ERROR ∨ ∃ r, synchronized r ∧ Call.adjtimex r ∈ w.calls)

/-- The `adjtime state` lines on standard error are the queries that did not
fail, in order. -/
def LogInv (w : Run) : Prop :=
  w.stderr.filterMap LogLine.queryCode = w.calls.filterMap Call.queryCode

/-! ## Example inputs -/

/-- The results of a poll cycle: `timerfd_create`, `timerfd_settime`, `adjtimex`
and `sd_event_add_io` return the given values; the kernel reports status
`0x2001` (nanosecond resolution) at 1700000000.123456789. -/
def example_poll (create settime query add : Int) : PollOS :=
  { timerfd_create := create, timerfd_settime := settime, adjtimex := query,
    tx_status := 0x2001, tx_sec := 1700000000, tx_usec := 123456789,
    sd_event_add_io := add }

/-- A run in which every setup call succeeds. -/
def example_run (first : PollOS) (events : List LoopEvent) : MainOS :=
  { sd_event_default := 0, sigemptyset := 0, sigaddset_term := 0, sigaddset_int := 0,
    sigprocmask := 0, errno := 0, add_signal_term := 0, add_signal_int := 0,
    set_watchdog := 0, first := first, events := events }

/-! ## The poll cycle, field by field -/

theorem io_handler_eq (w : Run) (os : PollOS) :
    io_handler w os = io_branch (io_query (io_timer w os) os) os := rfl

theorem io_timer_state (w : Run) (os : PollOS) :
    (io_timer w os).1.state =
      { fd := os.timerfd_create, adjtime_state := w.state.adjtime_state, event_source := none } := by
  simp only [io_timer, Run.call, Run.log, Run.sd_event_exit]; split_ifs <;> simp_all

theorem io_timer_exit (w : Run) (os : PollOS) : (io_timer w os).1.exit_code = w.exit_code := by
  simp only [io_timer, Run.call, Run.log, Run.sd_event_exit]; split_ifs <;> simp_all

theorem io_timer_stderr (w : Run) (os : PollOS) : (io_timer w os).1.stderr = w.stderr := by
  simp only [io_timer, Run.call, Run.log, Run.sd_event_exit]; split_ifs <;> simp_all

theorem io_timer_calls (w : Run) (os : PollOS) :
    (io_timer w os).1.calls = w.calls ++ ([Call.source_unref w.state.event_source]
      ++ (if 0 ≤ w.state.fd then [Call.close w.state.fd] else [])
      ++ [Call.timerfd_create os.timerfd_create]
      ++ (if 0 ≤ os.timerfd_create
          then [Call.timerfd_settime os.timerfd_create os.timerfd_settime] else [])) := by
  simp only [io_timer, Run.call, Run.log, Run.sd_event_exit]; split_ifs <;> simp_all

theorem io_timer_rc (w : Run) (os : PollOS) :
    (io_timer w os).2 = if 0 ≤ os.timerfd_create then os.timerfd_settime else 0 := by
  simp [io_timer]

theorem io_query_state (p : Run × Int) (os : PollOS) :
    (io_query p os).1.state =
      { p.1.state with
        adjtime_state := if p.2 = 0 then os.adjtimex else p.1.state.adjtime_state } := by
  simp only [io_query, Run.call, Run.log, Run.sd_event_exit]; split_ifs <;> simp_all

theorem io_query_exit (p : Run × Int) (os : PollOS) :
    (io_query p os).1.exit_code = p.1.exit_code := by
  simp only [io_query, Run.call, Run.log, Run.sd_event_exit]; split_ifs <;> simp_all

theorem io_query_stderr (p : Run × Int) (os : PollOS) :
    (io_query p os).1.stderr = p.1.stderr ++
      (if p.2 = 0 ∧ 0 ≤ os.adjtimex then
        [LogLine.adjtime os.adjtimex os.tx_status (toInt32 os.tx_sec)
          (Int.tdiv (toInt32 os.tx_usec) (if Int.land STA_NANO os.tx_status ≠ 0 then 1000 else 1))]
       else []) := by
  simp only [io_query, Run.call, Run.log, Run.sd_event_exit]; split_ifs <;> simp_all

theorem io_query_calls (p : Run × Int) (os : PollOS) :
    (io_query p os).1.calls = p.1.calls ++ (if p.2 = 0 then [Call.adjtimex os.adjtimex] else []) := by
  simp only [io_query, Run.call, Run.log, Run.sd_event_exit]; split_ifs <;> simp_all

theorem io_query_rc (p : Run × Int) (os : PollOS) :
    (io_query p os).2 = if p.2 = 0 then os.adjtimex else p.2 := by
  simp [io_query]

theorem io_branch_state (p : Run × Int) (os : PollOS) :
    (io_branch p os).1.state =
      { p.1.state with
        event_source :=
          if TIME_ERROR = p.1.state.adjtime_state ∧ 0 ≤ os.sd_event_add_io
          then some p.1.state.fd else p.1.state.event_source } := by
  simp only [io_branch, Run.call, Run.log, Run.sd_event_exit]; split_ifs <;> simp_all

theorem io_branch_exit (p : Run × Int) (os : PollOS) :
    (io_branch p os).1.exit_code =
      if TIME_ERROR = p.1.state.adjtime_state then
        if 0 > os.sd_event_add_io then some os.sd_event_add_io else p.1.exit_code
      else if 0 ≤ p.1.state.adjtime_state then some 0
      else if 0 > p.2 then some p.2 else p.1.exit_code := by
  simp only [io_branch, Run.call, Run.log, Run.sd_event_exit]; split_ifs <;> simp_all

theorem io_branch_stderr (p : Run × Int) (os : PollOS) :
    (io_branch p os).1.stderr = p.1.stderr := by
  simp only [io_branch, Run.call, Run.log, Run.sd_event_exit]; split_ifs <;> simp_all

theorem io_branch_calls (p : Run × Int) (os : PollOS) :
    (io_branch p os).1.calls = p.1.calls ++
      (if TIME_ERROR = p.1.state.adjtime_state
       then [Call.add_io p.1.state.fd os.sd_event_add_io] else []) := by
  simp only [io_branch, Run.call, Run.log, Run.sd_event_exit]; split_ifs <;> simp_all

theorem io_branch_rc (p : Run × Int) (os : PollOS) :
    (io_branch p os).2 =
      if TIME_ERROR = p.1.state.adjtime_state then os.sd_event_add_io
      else if 0 ≤ p.1.state.adjtime_state then 0 else p.2 := by
  simp only [io_branch, Run.call, Run.log, Run.sd_event_exit]; split_ifs <;> simp_all

theorem io_handler_state (w : Run) (os : PollOS) :
    (io_handler w os).1.state =
      { fd := os.timerfd_create, adjtime_state := poll_adjtime w.state os,
        event_source :=
          if TIME_ERROR = poll_adjtime w.state os ∧ 0 ≤ os.sd_event_add_io
          then some os.timerfd_create else none } := by
  rw [io_handler_eq, io_branch_state, io_query_state, io_timer_state, io_timer_rc]
  rfl

theorem io_handler_calls (w : Run) (os : PollOS) :
    (io_handler w os).1.calls = w.calls ++ poll_calls w.state os := by
  rw [io_handler_eq, io_branch_calls, io_query_calls, io_query_state, io_timer_state,
    io_timer_calls, io_timer_rc]
  simp only [poll_calls, poll_adjtime, PollOS.queried, List.append_assoc]

theorem io_handler_stderr (w : Run) (os : PollOS) :
    (io_handler w os).1.stderr = w.stderr ++ poll_lines os := by
  rw [io_handler_eq, io_branch_stderr, io_query_stderr, io_timer_stderr, io_timer_rc]
  rfl

theorem io_handler_rc (w : Run) (os : PollOS) :
    (io_handler w os).2 = poll_rc w.state os := by
  rw [io_handler_eq, io_branch_rc, io_query_rc, io_query_state, io_timer_state, io_timer_rc]
  simp only [poll_rc, poll_adjtime, PollOS.queried]
  split_ifs <;> simp_all

theorem io_handler_exit (w : Run) (os : PollOS) :
    (io_handler w os).1.exit_code = poll_exit w.exit_code w.state os := by
  rw [io_handler_eq, io_branch_exit, io_query_rc, io_query_state, io_query_exit, io_timer_state,
    io_timer_exit, io_timer_rc]
  simp only [poll_exit, poll_rc, poll_adjtime, PollOS.queried]
  split_ifs <;> simp_all

/-! ## The event loop -/

theorem sd_event_loop_invariant (I : Run → Prop)
    (hio : ∀ w os, I w → w.exit_code = none → I (io_handler w os).1)
    (hsig : ∀ w, I w → w.exit_code = none → I (w.sd_event_exit 0)) :
    ∀ (evs : List LoopEvent) (w : Run), I w → I (sd_event_loop w evs).1 := by
  intro evs
  induction evs with
  | nil => intro w h; simpa [sd_event_loop] using h
  | cons ev evs ih =>
    intro w h
    cases hx : w.exit_code with
    | some c => simpa [sd_event_loop, hx] using h
    | none =>
      cases ev with
      | io os =>
        by_cases hs : w.state.event_source.isSome
        · simpa [sd_event_loop, hx, hs] using ih _ (hio w os h hx)
        · simpa [sd_event_loop, hx, hs] using ih _ h
      | signal => simpa [sd_event_loop, hx] using ih _ (hsig w h hx)
      | watchdog => simpa [sd_event_loop, hx] using ih _ h
      | error e =>
        by_cases he : e < 0
        · simpa [sd_event_loop, hx, he] using h
        · simpa [sd_event_loop, hx, he] using ih _ h

theorem sd_event_loop_rc :
    ∀ (evs : List LoopEvent) (w : Run) (rc : Int), (sd_event_loop w evs).2 = some rc →
      (sd_event_loop w evs).1.exit_code = some rc
        ∨ ((sd_event_loop w evs).1.exit_code = none ∧ rc < 0) := by
  intro evs
  induction evs with
  | nil => intro w rc h; left; simpa [sd_event_loop] using h
  | cons ev evs ih =>
    intro w rc
    cases hx : w.exit_code with
    | some c =>
      intro h
      left
      simp [sd_event_loop, hx] at h ⊢
      exact h
    | none =>
      cases ev with
      | io os =>
        by_cases hs : w.state.event_source.isSome
        · simpa [sd_event_loop, hx, hs] using ih _ rc
        · simpa [sd_event_loop, hx, hs] using ih _ rc
      | signal => simpa [sd_event_loop, hx] using ih _ rc
      | watchdog => simpa [sd_event_loop, hx] using ih _ rc
      | error e =>
        by_cases he : e < 0
        · intro h
          right
          simp only [sd_event_loop, hx, he, if_true, Option.some.injEq] at h ⊢
          subst h
          exact ⟨trivial, he⟩
        · simpa [sd_event_loop, hx, he] using ih _ rc

/-! ## Calls after a synchronized query -/

theorem quiet_cons (c : Call) (cs : List Call) :
    Quiet (c :: cs) ↔
      (∀ r, c = Call.adjtimex r → synchronized r →
        ∀ d ∈ cs, d.isAddIo = false ∧ d.isCreate = false) ∧ Quiet cs := Iff.rfl

theorem quiet_append (a b : List Call) :
    Quiet (a ++ b) ↔ Quiet a ∧ Quiet b ∧
      (∀ r, Call.adjtimex r ∈ a → synchronized r →
        ∀ d ∈ b, d.isAddIo = false ∧ d.isCreate = false) := by
  induction a with
  | nil => simp [Quiet]
  | cons c a ih =>
    rw [List.cons_append, quiet_cons, quiet_cons, ih]
    simp only [List.mem_append, List.mem_cons]
    constructor
    · rintro ⟨h1, h2, h3, h4⟩
      refine ⟨⟨fun r hc hr d hd => h1 r hc hr d (Or.inl hd), h2⟩, h3, ?_⟩
      rintro r (hr | hr) hs d hd
      · exact h1 r hr.symm hs d (Or.inr hd)
      · exact h4 r hr hs d hd
    · rintro ⟨⟨h1, h2⟩, h3, h4⟩
      refine ⟨?_, h2, h3, fun r hr => h4 r (Or.inr hr)⟩
      rintro r hc hs d (hd | hd)
      · exact h1 r hc hs d hd
      · exact h4 r (Or.inl hc.symm) hs d hd

theorem quiet_split {l : List Call} (h : Quiet l) (p q : List Call) (r : Int)
    (hl : l = p ++ Call.adjtimex r :: q) (hs : synchronized r) :
    ∀ d ∈ q, d.isAddIo = false ∧ d.isCreate = false := by
  subst hl
  have h2 := ((quiet_append _ _).1 h).2.1
  exact h2.1 r rfl hs

theorem mem_poll_calls_adjtimex (sp : state_s) (os : PollOS) (r : Int) :
    Call.adjtimex r ∈ poll_calls sp os ↔ os.queried ∧ r = os.adjtimex := by
  unfold poll_calls
  split_ifs <;> simp_all

theorem quiet_poll_calls (sp : state_s) (os : PollOS) : Quiet (poll_calls sp os) := by
  unfold poll_calls poll_adjtime
  split_ifs <;> simp_all [Quiet, synchronized, Call.isAddIo, Call.isCreate]

theorem queryInv_init : QueryInv state_init := by
  simp [QueryInv, state_init, Quiet]

theorem queryInv_io (w : Run) (os : PollOS) (h : QueryInv w) (hx : w.exit_code = none) :
    QueryInv (io_handler w os).1 := by
  obtain ⟨h1, h2, h3⟩ := h
  have n1 : ∀ c, c < 0 → Call.adjtimex c ∉ w.calls := fun c hc hm => by
    have := h1 c hc hm; simp [hx] at this
  have n2 : ∀ r, synchronized r → Call.adjtimex r ∉ w.calls := fun r hr hm => by
    have := h2 r hr hm; simp [hx] at this
  refine ⟨?_, ?_, ?_⟩
  · intro c hc hm
    rw [io_handler_calls, List.mem_append, mem_poll_calls_adjtimex] at hm
    rcases hm with hm | ⟨hq, rfl⟩
    · exact absurd hm (n1 c hc)
    · have hne : ¬ TIME_ERROR = os.adjtimex := by unfold TIME_ERROR; omega
      have hneg : ¬ 0 ≤ os.adjtimex := by omega
      simp [io_handler_exit, poll_exit, poll_rc, poll_adjtime, hq, hne, hneg, hc]
  · intro r hr hm
    rw [io_handler_calls, List.mem_append, mem_poll_calls_adjtimex] at hm
    rcases hm with hm | ⟨hq, rfl⟩
    · exact absurd hm (n2 r hr)
    · have hne : ¬ TIME_ERROR = os.adjtimex := fun e => hr.2 e.symm
      simp [io_handler_exit, poll_exit, poll_adjtime, hq, hne, hr.1]
  · rw [io_handler_calls, quiet_append]
    exact ⟨h3, quiet_poll_calls _ _, fun r hm hr => absurd hm (n2 r hr)⟩

theorem queryInv_sig (w : Run) (h : QueryInv w) (hx : w.exit_code = none) :
    QueryInv (w.sd_event_exit 0) := by
  obtain ⟨h1, h2, h3⟩ := h
  refine ⟨?_, ?_, h3⟩
  · intro c hc hm
    have := h1 c hc hm; simp [hx] at this
  · intro r _ _
    rfl

theorem queryInv_loop (w : Run) (evs : List LoopEvent) (h : QueryInv w) :
    QueryInv (sd_event_loop w evs).1 :=
  sd_event_loop_invariant QueryInv queryInv_io queryInv_sig evs w h

theorem waitInv_io (w : Run) (os : PollOS) (h : WaitInv w) (hx : w.exit_code = none) :
    WaitInv (io_handler w os).1 := by
  have ha := h.1 hx
  unfold WaitInv
  rw [io_handler_exit, io_handler_state, io_handler_calls, hx]
  by_cases hq : os.queried
  · by_cases he : TIME_ERROR = os.adjtimex
    · by_cases hr : 0 > os.sd_event_add_io
      · simp [poll_exit, poll_adjtime, hq, he, hr]
      · simp [poll_exit, poll_adjtime, hq, he, hr]
    · by_cases hn : 0 ≤ os.adjtimex
      · simp only [poll_exit, poll_adjtime, hq, he, hn, if_true, if_false]
        refine ⟨by simp, fun c _ _ => Or.inr ⟨os.adjtimex, ⟨hn, fun e => he e.symm⟩, ?_⟩⟩
        rw [List.mem_append, mem_poll_calls_adjtimex]
        exact Or.inr ⟨hq, rfl⟩
      · have hlt : os.adjtimex < 0 := by omega
        simp [poll_exit, poll_rc, poll_adjtime, hq, he, hn, hlt]
  · by_cases hr : 0 > os.sd_event_add_io
    · simp [poll_exit, poll_adjtime, hq, ha, hr]
    · simp [poll_exit, poll_adjtime, hq, ha, hr]

theorem waitInv_sig (w : Run) (h : WaitInv w) (hx : w.exit_code = none) :
    WaitInv (w.sd_event_exit 0) := by
  have ha := h.1 hx
  refine ⟨by simp [Run.sd_event_exit], fun c _ _ => Or.inl ha⟩

theorem waitInv_loop (w : Run) (evs : List LoopEvent) (h : WaitInv w) :
    WaitInv (sd_event_loop w evs).1 :=
  sd_event_loop_invariant WaitInv waitInv_io waitInv_sig evs w h

theorem logInv_io (w : Run) (os : PollOS) (h : LogInv w) : LogInv (io_handler w os).1 := by
  unfold LogInv at h ⊢
  rw [io_handler_stderr, io_handler_calls, List.filterMap_append, List.filterMap_append, h]
  congr 1
  unfold poll_lines poll_calls
  split_ifs <;> simp_all [LogLine.queryCode, Call.queryCode]

theorem logInv_loop (w : Run) (evs : List LoopEvent) (h : LogInv w) :
    LogInv (sd_event_loop w evs).1 :=
  sd_event_loop_invariant LogInv (fun w os h _ => logInv_io w os h) (fun _ h _ => h) evs w h

/-! ## Resources along the calls -/

theorem main_exit_calls (w : Run) (rc : Int) (e : Bool) (l : Option Int) :
    (main_exit w rc e l).run.calls =
      w.calls ++ [Call.close w.state.fd, Call.source_unref w.state.event_source] := by
  simp [main_exit, Run.call]

theorem main_exit_stderr (w : Run) (rc : Int) (e : Bool) (l : Option Int) :
    (main_exit w rc e l).run.stderr = w.stderr := by
  simp [main_exit, Run.call]

theorem main_exit_state (w : Run) (rc : Int) (e : Bool) (l : Option Int) :
    (main_exit w rc e l).run.state = { w.state with event_source := none } := by
  simp [main_exit, Run.call]

theorem main_exit_status (w : Run) (rc : Int) (e : Bool) (l : Option Int) :
    (main_exit w rc e l).status = some (if 0 > rc then EXIT_FAILURE else EXIT_SUCCESS) := rfl

theorem main_exit_entered (w : Run) (rc : Int) (e : Bool) (l : Option Int) :
    (main_exit w rc e l).loop_entered = e := rfl

theorem main_exit_loop_rc (w : Run) (rc : Int) (e : Bool) (l : Option Int) :
    (main_exit w rc e l).loop_rc = l := rfl

theorem main_cases (os : MainOS) (P : Outcome → Prop)
    (hA : ¬ 0 ≤ main_setup os → P (main_exit state_init (main_setup os) false none))
    (hB : 0 ≤ main_setup os →
      ¬ (0 ≤ (io_handler state_init os.first).2
          ∧ TIME_ERROR = (io_handler state_init os.first).1.state.adjtime_state) →
      P (main_exit (io_handler state_init os.first).1 (io_handler state_init os.first).2 false none))
    (hC : 0 ≤ main_setup os →
      (0 ≤ (io_handler state_init os.first).2
          ∧ TIME_ERROR = (io_handler state_init os.first).1.state.adjtime_state) →
      ∀ w, sd_event_loop (io_handler state_init os.first).1 os.events = (w, none) →
        P { status := none, loop_entered := true, loop_rc := none, run := w })
    (hD : 0 ≤ main_setup os →
      (0 ≤ (io_handler state_init os.first).2
          ∧ TIME_ERROR = (io_handler state_init os.first).1.state.adjtime_state) →
      ∀ w rc, sd_event_loop (io_handler state_init os.first).1 os.events = (w, some rc) →
        0 > rc → P (main_exit (w.log (.loop_terminated rc)) rc true (some rc)))
    (hE : 0 ≤ main_setup os →
      (0 ≤ (io_handler state_init os.first).2
          ∧ TIME_ERROR = (io_handler state_init os.first).1.state.adjtime_state) →
      ∀ w rc, sd_event_loop (io_handler state_init os.first).1 os.events = (w, some rc) →
        ¬ 0 > rc → TIME_ERROR = w.state.adjtime_state →
        P (main_exit (w.log .without_sync) (-1) true (some rc)))
    (hF : 0 ≤ main_setup os →
      (0 ≤ (io_handler state_init os.first).2
          ∧ TIME_ERROR = (io_handler state_init os.first).1.state.adjtime_state) →
      ∀ w rc, sd_event_loop (io_handler state_init os.first).1 os.events = (w, some rc) →
        ¬ 0 > rc → ¬ TIME_ERROR = w.state.adjtime_state →
        P (main_exit w rc true (some rc))) :
    P (main os) := by
  unfold main
  by_cases h0 : 0 ≤ main_setup os
  · rw [if_pos h0]
    by_cases h1 : 0 ≤ (io_handler state_init os.first).2
          ∧ TIME_ERROR = (io_handler state_init os.first).1.state.adjtime_state
    · dsimp only
      rw [if_pos h1]
      rcases hl : sd_event_loop (io_handler state_init os.first).1 os.events with ⟨w, _ | rc⟩
      · exact hC h0 h1 w hl
      · dsimp only
        by_cases h2 : 0 > rc
        · rw [if_pos h2]
          exact hD h0 h1 w rc hl h2
        · rw [if_neg h2]
          by_cases h3 : TIME_ERROR = w.state.adjtime_state
          · rw [if_pos h3]
            exact hE h0 h1 w rc hl h2 h3
          · rw [if_neg h3]
            exact hF h0 h1 w rc hl h2 h3
    · dsimp only
      rw [if_neg h1]
      exact hB h0 h1
  · rw [if_neg h0]
    exact hA h0

theorem loop_entry_exit (w : Run) (os : PollOS) (h : 0 ≤ (io_handler w os).2)
    (ht : TIME_ERROR = (io_handler w os).1.state.adjtime_state) :
    (io_handler w os).1.exit_code = w.exit_code := by
  rw [io_handler_rc] at h
  rw [io_handler_state] at ht
  simp only at ht
  rw [io_handler_exit]
  unfold poll_rc at h
  unfold poll_exit
  rw [if_pos ht] at h ⊢
  rw [if_neg (by omega)]

theorem waitInv_entry (os : PollOS) (h : 0 ≤ (io_handler state_init os).2)
    (ht : TIME_ERROR = (io_handler state_init os).1.state.adjtime_state) :
    WaitInv (io_handler state_init os).1 := by
  have hx := loop_entry_exit state_init os h ht
  refine ⟨fun _ => ht.symm, fun c hc _ => ?_⟩
  rw [hx] at hc
  simp [state_init] at hc

theorem sd_event_loop_waiting :
    ∀ (evs : List LoopEvent) (w : Run), (sd_event_loop w evs).2 = none →
      (sd_event_loop w evs).1.exit_code = none := by
  intro evs
  induction evs with
  | nil => intro w h; simpa [sd_event_loop] using h
  | cons ev evs ih =>
    intro w
    cases hx : w.exit_code with
    | some c => simp [sd_event_loop, hx]
    | none =>
      cases ev with
      | io os =>
        by_cases hs : w.state.event_source.isSome
        · simpa [sd_event_loop, hx, hs] using ih _
        · simpa [sd_event_loop, hx, hs] using ih _
      | signal => simpa [sd_event_loop, hx] using ih _
      | watchdog => simpa [sd_event_loop, hx] using ih _
      | error e =>
        by_cases he : e < 0
        · simp [sd_event_loop, hx, he]
        · simpa [sd_event_loop, hx, he] using ih _

theorem sd_event_loop_calls_mono (I : Call) :
    ∀ (evs : List LoopEvent) (w : Run), I ∈ w.calls → I ∈ (sd_event_loop w evs).1.calls :=
  sd_event_loop_invariant (fun w => I ∈ w.calls)
    (fun w os h _ => by
      show I ∈ (io_handler w os).1.calls
      rw [io_handler_calls]; exact List.mem_append_left _ h)
    (fun _ h _ => h)

theorem quiet_teardown {cs : List Call} (h : Quiet cs) (fd : Int) (s : Option Int) :
    Quiet (cs ++ [Call.close fd, Call.source_unref s]) := by
  rw [quiet_append]
  refine ⟨h, by simp [Quiet], ?_⟩
  intro r _ _ d hd
  simp only [List.mem_cons, List.mem_singleton, List.not_mem_nil, or_false] at hd
  rcases hd with rfl | rfl <;> simp [Call.isAddIo, Call.isCreate]

theorem main_quiet (os : MainOS) : Quiet (main os).run.calls := by
  have hr : QueryInv (io_handler state_init os.first).1 := queryInv_io _ _ queryInv_init rfl
  have hl := queryInv_loop (io_handler state_init os.first).1 os.events hr
  refine main_cases os (fun o => Quiet o.run.calls) ?_ ?_ ?_ ?_ ?_ ?_
  · intro _
    rw [main_exit_calls]
    exact quiet_teardown queryInv_init.2.2 _ _
  · intro _ _
    rw [main_exit_calls]
    exact quiet_teardown hr.2.2 _ _
  · intro _ _ w hw
    rw [hw] at hl
    exact hl.2.2
  · intro _ _ w rc hw _
    rw [hw] at hl
    rw [main_exit_calls]
    exact quiet_teardown hl.2.2 _ _
  · intro _ _ w rc hw _ _
    rw [hw] at hl
    rw [main_exit_calls]
    exact quiet_teardown hl.2.2 _ _
  · intro _ _ w rc hw _ _
    rw [hw] at hl
    rw [main_exit_calls]
    exact quiet_teardown hl.2.2 _ _

theorem mem_teardown_adjtimex {cs : List Call} {fd : Int} {s : Option Int} {c : Int}
    (h : Call.adjtimex c ∈ cs ++ [Call.close fd, Call.source_unref s]) : Call.adjtimex c ∈ cs := by
  simpa using h

theorem first_query_failed (os : PollOS) (c : Int) (hc : c < 0)
    (hm : Call.adjtimex c ∈ (io_handler state_init os).1.calls) :
    (io_handler state_init os).2 = c ∧ (io_handler state_init os).1.stderr = [] := by
  rw [io_handler_calls] at hm
  have hm2 : Call.adjtimex c ∈ poll_calls state_init.state os := by
    simpa [state_init] using hm
  rw [mem_poll_calls_adjtimex] at hm2
  obtain ⟨hq, rfl⟩ := hm2
  have hne : ¬ TIME_ERROR = os.adjtimex := by unfold TIME_ERROR; omega
  have hneg : ¬ 0 ≤ os.adjtimex := by omega
  rw [io_handler_rc, io_handler_stderr]
  simp [poll_rc, poll_lines, poll_adjtime, hq, hne, hneg, state_init]

theorem main_query_failed (os : MainOS) (c : Int) (hc : c < 0)
    (hm : Call.adjtimex c ∈ (main os).run.calls) :
    (main os).status = some EXIT_FAILURE
      ∧ ((main os).loop_entered = true → LogLine.loop_terminated c ∈ (main os).run.stderr)
      ∧ ((main os).loop_entered = false → (main os).run.stderr = []) := by
  have hr : QueryInv (io_handler state_init os.first).1 := queryInv_io _ _ queryInv_init rfl
  have hl := queryInv_loop (io_handler state_init os.first).1 os.events hr
  revert hm
  refine main_cases os (fun o => Call.adjtimex c ∈ o.run.calls → o.status = some EXIT_FAILURE
      ∧ (o.loop_entered = true → LogLine.loop_terminated c ∈ o.run.stderr)
      ∧ (o.loop_entered = false → o.run.stderr = [])) ?_ ?_ ?_ ?_ ?_ ?_
  · intro _ hm
    rw [main_exit_calls] at hm
    simp [state_init] at hm
  · intro _ _ hm
    rw [main_exit_calls] at hm
    have h := first_query_failed os.first c hc (mem_teardown_adjtimex hm)
    rw [main_exit_status, main_exit_stderr, main_exit_entered, h.1, h.2]
    simp [hc]
  · intro _ _ w hw hm
    have h2 := sd_event_loop_waiting os.events (io_handler state_init os.first).1
    rw [hw] at hl h2
    have := hl.1 c hc hm
    rw [h2 rfl] at this
    simp at this
  · intro _ _ w rc hw hrc hm
    rw [main_exit_calls] at hm
    have h2 := sd_event_loop_rc os.events (io_handler state_init os.first).1 rc
    rw [hw] at hl h2
    have hx := hl.1 c hc (mem_teardown_adjtimex hm)
    have hrc2 : rc = c := by
      rcases h2 rfl with h | h
      · rw [hx] at h; exact (Option.some.inj h).symm
      · rw [hx] at h; simp at h
    subst hrc2
    rw [main_exit_status, main_exit_stderr, main_exit_entered]
    simp [hc, Run.log]
  · intro _ _ w rc hw hrc _ hm
    rw [main_exit_calls] at hm
    have h2 := sd_event_loop_rc os.events (io_handler state_init os.first).1 rc
    rw [hw] at hl h2
    have hx := hl.1 c hc (mem_teardown_adjtimex hm)
    rcases h2 rfl with h | h
    · rw [hx] at h; have := Option.some.inj h; omega
    · rw [hx] at h; simp at h
  · intro _ _ w rc hw hrc _ hm
    rw [main_exit_calls] at hm
    have h2 := sd_event_loop_rc os.events (io_handler state_init os.first).1 rc
    rw [hw] at hl h2
    have hx := hl.1 c hc (mem_teardown_adjtimex hm)
    rcases h2 rfl with h | h
    · rw [hx] at h; have := Option.some.inj h; omega
    · rw [hx] at h; simp at h

theorem main_wait (os : MainOS) (rc : Int) (he : (main os).loop_entered = true)
    (hl : (main os).loop_rc = some rc) (hrc : 0 ≤ rc)
    (hn : ∀ r, Call.adjtimex r ∈ (main os).run.calls → ¬ synchronized r) :
    (main os).run.state.adjtime_state = TIME_ERROR
      ∧ (main os).status = some EXIT_FAILURE
      ∧ LogLine.without_sync ∈ (main os).run.stderr := by
  revert he hl hn
  refine main_cases os (fun o => o.loop_entered = true → o.loop_rc = some rc →
      (∀ r, Call.adjtimex r ∈ o.run.calls → ¬ synchronized r) →
      o.run.state.adjtime_state = TIME_ERROR ∧ o.status = some EXIT_FAILURE
        ∧ LogLine.without_sync ∈ o.run.stderr) ?_ ?_ ?_ ?_ ?_ ?_
  · intro _ he
    simp [main_exit_entered] at he
  · intro _ _ he
    simp [main_exit_entered] at he
  · intro _ _ w _ _ hl
    simp at hl
  · intro _ _ w rc2 _ h2 _ hl
    rw [main_exit_loop_rc] at hl
    have := Option.some.inj hl
    omega
  · intro _ _ w rc2 _ _ h3 _ _ _
    rw [main_exit_state, main_exit_status, main_exit_stderr]
    refine ⟨h3.symm, by simp [EXIT_FAILURE], by simp [Run.log]⟩
  · intro _ hc w rc2 hw h2 h3 _ hl hn
    rw [main_exit_loop_rc] at hl
    have e := Option.some.inj hl
    subst e
    have hwait := waitInv_loop (io_handler state_init os.first).1 os.events
      (waitInv_entry os.first hc.1 hc.2)
    have hr := sd_event_loop_rc os.events (io_handler state_init os.first).1 rc2
    rw [hw] at hwait hr
    rcases hr rfl with hx | hx
    · rcases hwait.2 rc2 hx hrc with h | ⟨r, hs, hm⟩
      · exact absurd h.symm h3
      · exfalso
        refine hn r ?_ hs
        rw [main_exit_calls]
        exact List.mem_append_left _ hm
    · omega

theorem logInv_init : LogInv state_init := by
  simp [LogInv, state_init]

theorem logInv_exit {w : Run} (h : LogInv w) (rc : Int) (e : Bool) (l : Option Int) :
    LogInv (main_exit w rc e l).run := by
  unfold LogInv at h ⊢
  rw [main_exit_calls, main_exit_stderr, List.filterMap_append, h]
  simp [Call.queryCode]

theorem logInv_log {w : Run} (h : LogInv w) (l : LogLine) (hl : l.queryCode = none) :
    LogInv (w.log l) := by
  unfold LogInv at h ⊢
  simp [Run.log, List.filterMap_append, h, hl]

theorem main_log (os : MainOS) : LogInv (main os).run := by
  have hr : LogInv (io_handler state_init os.first).1 := logInv_io _ _ logInv_init
  have hl := logInv_loop (io_handler state_init os.first).1 os.events hr
  refine main_cases os (fun o => LogInv o.run) ?_ ?_ ?_ ?_ ?_ ?_
  · intro _
    exact logInv_exit logInv_init _ _ _
  · intro _ _
    exact logInv_exit hr _ _ _
  · intro _ _ w hw
    rw [hw] at hl
    exact hl
  · intro _ _ w rc hw _
    rw [hw] at hl
    exact logInv_exit (logInv_log hl (LogLine.loop_terminated rc) rfl) _ _ _
  · intro _ _ w rc hw _ _
    rw [hw] at hl
    exact logInv_exit (logInv_log hl LogLine.without_sync rfl) _ _ _
  · intro _ _ w rc hw _ _
    rw [hw] at hl
    exact logInv_exit hl _ _ _

/-! ## Runs of not synchronized cycles -/

theorem sd_event_loop_exited (w : Run) (c : Int) (h : w.exit_code = some c)
    (evs : List LoopEvent) : sd_event_loop w evs = (w, some c) := by
  cases evs with
  | nil => simp [sd_event_loop, h]
  | cons ev evs => simp [sd_event_loop, h]

theorem io_handler_not_sync (w : Run) (os : PollOS) (h : os.ok_with TIME_ERROR) :
    (io_handler w os).1.exit_code = w.exit_code
      ∧ (io_handler w os).1.state.event_source = some os.timerfd_create
      ∧ (io_handler w os).1.state.adjtime_state = TIME_ERROR
      ∧ (io_handler w os).2 = os.sd_event_add_io
      ∧ (io_handler w os).1.calls = w.calls ++
          ([Call.source_unref w.state.event_source]
            ++ (if 0 ≤ w.state.fd then [Call.close w.state.fd] else [])
            ++ [Call.timerfd_create os.timerfd_create,
                Call.timerfd_settime os.timerfd_create 0,
                Call.adjtimex TIME_ERROR,
                Call.add_io os.timerfd_create os.sd_event_add_io]) := by
  obtain ⟨⟨h1, h2⟩, h3, h4⟩ := h
  have hq : os.queried := by simp [PollOS.queried, h1, h2]
  have hn : ¬ 0 > os.sd_event_add_io := by omega
  rw [io_handler_exit, io_handler_state, io_handler_rc, io_handler_calls]
  simp [poll_exit, poll_rc, poll_adjtime, poll_calls, hq, h1, h2, h3, h4, hn]

theorem io_handler_sync (w : Run) (os : PollOS) (ht : os.timer_ok)
    (hs : synchronized os.adjtimex) :
    (io_handler w os).1.exit_code = some 0
      ∧ (io_handler w os).1.state.event_source = none
      ∧ (io_handler w os).1.state.adjtime_state = os.adjtimex
      ∧ (io_handler w os).2 = 0
      ∧ (io_handler w os).1.calls = w.calls ++
          ([Call.source_unref w.state.event_source]
            ++ (if 0 ≤ w.state.fd then [Call.close w.state.fd] else [])
            ++ [Call.timerfd_create os.timerfd_create,
                Call.timerfd_settime os.timerfd_create 0,
                Call.adjtimex os.adjtimex]) := by
  obtain ⟨h1, h2⟩ := ht
  have hq : os.queried := by simp [PollOS.queried, h1, h2]
  have hne : ¬ TIME_ERROR = os.adjtimex := fun e => hs.2 e.symm
  rw [io_handler_exit, io_handler_state, io_handler_rc, io_handler_calls]
  simp [poll_exit, poll_rc, poll_adjtime, poll_calls, hq, h1, h2, hne, hs.1]

theorem io_handler_failed (w : Run) (os : PollOS) (ht : os.timer_ok)
    (hs : os.adjtimex < 0) :
    (io_handler w os).1.exit_code = some os.adjtimex
      ∧ (io_handler w os).1.state.event_source = none
      ∧ (io_handler w os).1.state.adjtime_state = os.adjtimex
      ∧ (io_handler w os).2 = os.adjtimex
      ∧ (io_handler w os).1.calls = w.calls ++
          ([Call.source_unref w.state.event_source]
            ++ (if 0 ≤ w.state.fd then [Call.close w.state.fd] else [])
            ++ [Call.timerfd_create os.timerfd_create,
                Call.timerfd_settime os.timerfd_create 0,
                Call.adjtimex os.adjtimex]) := by
  obtain ⟨h1, h2⟩ := ht
  have hq : os.queried := by simp [PollOS.queried, h1, h2]
  have hne : ¬ TIME_ERROR = os.adjtimex := by unfold TIME_ERROR; omega
  have hneg : ¬ 0 ≤ os.adjtimex := by omega
  rw [io_handler_exit, io_handler_state, io_handler_rc, io_handler_calls]
  simp [poll_exit, poll_rc, poll_adjtime, poll_calls, hq, h1, h2, hne, hneg, hs]

theorem loop_not_sync_cycles (tail : List LoopEvent) :
    ∀ (cs : List PollOS) (w : Run), w.exit_code = none → w.state.event_source.isSome = true →
      0 ≤ w.state.fd → w.state.adjtime_state = TIME_ERROR →
      (∀ c ∈ cs, c.ok_with TIME_ERROR) →
      ∃ w2 : Run, sd_event_loop w (cs.map LoopEvent.io ++ tail) = sd_event_loop w2 tail
        ∧ w2.exit_code = none ∧ w2.state.event_source.isSome = true ∧ 0 ≤ w2.state.fd
        ∧ w2.state.adjtime_state = TIME_ERROR
        ∧ w2.stderr.length = w.stderr.length + cs.length
        ∧ w2.calls.countP Call.isCreate = w.calls.countP Call.isCreate + cs.length
        ∧ w2.calls.countP Call.isClose = w.calls.countP Call.isClose + cs.length
        ∧ w2.calls.countP Call.isAddIo = w.calls.countP Call.isAddIo + cs.length
        ∧ w2.calls.countP Call.registers = w.calls.countP Call.registers + cs.length
        ∧ w2.calls.countP Call.isQuery = w.calls.countP Call.isQuery + cs.length := by
  intro cs
  induction cs with
  | nil =>
    intro w hx hs hf ha _
    exact ⟨w, rfl, hx, hs, hf, ha, by simp⟩
  | cons c cs ih =>
    intro w hx hs hf ha hc
    have hc1 : c.ok_with TIME_ERROR := hc c (List.mem_cons_self _ _)
    have hc2 : ∀ d ∈ cs, d.ok_with TIME_ERROR := fun d hd => hc d (List.mem_cons_of_mem _ hd)
    obtain ⟨e1, e2, e3, e4, e5⟩ := io_handler_not_sync w c hc1
    have hfd : 0 ≤ (io_handler w c).1.state.fd := by
      rw [io_handler_state]; exact hc1.1.1
    have hio : 0 ≤ c.sd_event_add_io := hc1.2.2
    have hq : c.queried := by simp [PollOS.queried, hc1.1.1, hc1.1.2]
    have hl : (io_handler w c).1.stderr.length = w.stderr.length + 1 := by
      rw [io_handler_stderr]
      have : 0 ≤ c.adjtimex := by rw [hc1.2.1]; unfold TIME_ERROR; omega
      simp [poll_lines, hq, this]
    obtain ⟨w2, g1, g2, g3, g4, g5, g6, g7, g8, g9, g10, g11⟩ :=
      ih (io_handler w c).1 (e1.trans hx) (by rw [e2]; rfl) hfd e3 hc2
    refine ⟨w2, ?_, g2, g3, g4, g5, ?_, ?_, ?_, ?_, ?_, ?_⟩
    · rw [← g1]
      simp [sd_event_loop, hx, hs]
    · rw [g6, hl]; simp; omega
    · rw [g7, e5]; simp [List.countP_append, List.countP_cons, Call.isCreate, hf]; omega
    · rw [g8, e5]; simp [List.countP_append, List.countP_cons, Call.isClose, hf]; omega
    · rw [g9, e5]; simp [List.countP_append, List.countP_cons, Call.isAddIo, hf]; omega
    · rw [g10, e5]; simp [List.countP_append, List.countP_cons, Call.registers, hf, hio]; omega
    · rw [g11, e5]; simp [List.countP_append, List.countP_cons, Call.isQuery, hf]; omega

/-! ## The main routine on given runs -/

theorem main_setup_ok (os : MainOS) (h : os.setup_ok) : 0 ≤ main_setup os := by
  obtain ⟨h1, h2, h3, h4, h5, h6, h7, h8⟩ := h
  have hn : ¬ (0 > os.sigemptyset ∨ 0 > os.sigaddset_term ∨ 0 > os.sigaddset_int
      ∨ 0 > os.sigprocmask) := by omega
  simp only [main_setup, if_pos h1, if_neg hn, if_pos h6, if_pos h7]
  exact h8

theorem main_of_first (os : MainOS) (h0 : 0 ≤ main_setup os)
    (h1 : ¬ (0 ≤ (io_handler state_init os.first).2
          ∧ TIME_ERROR = (io_handler state_init os.first).1.state.adjtime_state)) :
    main os = main_exit (io_handler state_init os.first).1 (io_handler state_init os.first).2
      false none := by
  unfold main
  rw [if_pos h0]
  dsimp only
  rw [if_neg h1]

theorem main_of_loop (os : MainOS) (h0 : 0 ≤ main_setup os)
    (h1 : 0 ≤ (io_handler state_init os.first).2
          ∧ TIME_ERROR = (io_handler state_init os.first).1.state.adjtime_state)
    (w : Run) (rc : Int)
    (hl : sd_event_loop (io_handler state_init os.first).1 os.events = (w, some rc)) :
    main os =
      if 0 > rc then main_exit (w.log (.loop_terminated rc)) rc true (some rc)
      else if TIME_ERROR = w.state.adjtime_state then
        main_exit (w.log .without_sync) (-1) true (some rc)
      else main_exit w rc true (some rc) := by
  unfold main
  rw [if_pos h0]
  dsimp only
  rw [if_pos h1, hl]

theorem main_not_sync_cycles (os : MainOS) (cs : List PollOS) (tail : List LoopEvent)
    (hfirst : os.first.ok_with TIME_ERROR)
    (hcs : ∀ c ∈ cs, c.ok_with TIME_ERROR)
    (hev : os.events = cs.map LoopEvent.io ++ tail) :
    (0 ≤ (io_handler state_init os.first).2
        ∧ TIME_ERROR = (io_handler state_init os.first).1.state.adjtime_state)
      ∧ ∃ w2 : Run,
        sd_event_loop (io_handler state_init os.first).1 os.events = sd_event_loop w2 tail
        ∧ w2.exit_code = none ∧ w2.state.event_source.isSome = true ∧ 0 ≤ w2.state.fd
        ∧ w2.state.adjtime_state = TIME_ERROR
        ∧ w2.stderr.length = cs.length + 1
        ∧ w2.calls.countP Call.isCreate = cs.length + 1
        ∧ w2.calls.countP Call.isClose = cs.length
        ∧ w2.calls.countP Call.isAddIo = cs.length + 1
        ∧ w2.calls.countP Call.registers = cs.length + 1
        ∧ w2.calls.countP Call.isQuery = cs.length + 1 := by
  obtain ⟨e1, e2, e3, e4, e5⟩ := io_handler_not_sync state_init os.first hfirst
  have hfd : 0 ≤ (io_handler state_init os.first).1.state.fd := by
    rw [io_handler_state]; exact hfirst.1.1
  have hio : 0 ≤ os.first.sd_event_add_io := hfirst.2.2
  have hq : os.first.queried := by simp [PollOS.queried, hfirst.1.1, hfirst.1.2]
  have hl : (io_handler state_init os.first).1.stderr.length = 1 := by
    rw [io_handler_stderr]
    have : 0 ≤ os.first.adjtimex := by rw [hfirst.2.1]; unfold TIME_ERROR; omega
    simp [poll_lines, hq, this, state_init]
  refine ⟨⟨by rw [e4]; exact hio, e3.symm⟩, ?_⟩
  obtain ⟨w2, g1, g2, g3, g4, g5, g6, g7, g8, g9, g10, g11⟩ :=
    loop_not_sync_cycles tail cs (io_handler state_init os.first).1 (e1.trans rfl)
      (by rw [e2]; rfl) hfd e3 hcs
  refine ⟨w2, by rw [hev, g1], g2, g3, g4, g5, ?_, ?_, ?_, ?_, ?_, ?_⟩
  · rw [g6, hl]; omega
  · rw [g7, e5]; simp [state_init, Call.isCreate]; omega
  · rw [g8, e5]; simp [state_init, Call.isClose]
  · rw [g9, e5]; simp [state_init, Call.isAddIo]; omega
  · rw [g10, e5]; simp [state_init, Call.registers, hio]; omega
  · rw [g11, e5]; simp [state_init, Call.isQuery]; omega

/-- Claim C8: in a poll cycle in which the timer is created and armed and the
query returns `TIME_ERROR`, the calls of the cycle end with one
`sd_event_add_io` on the descriptor that `timerfd_create` returned in this
cycle, and it is the only one; when the registration succeeds the exit request
is left as it was and the event source is live, and when it fails with a
negative code `e` the cycle requests exit with `e` and returns `e`. -/
theorem not_synchronized_cycle_registers (w : Run) (os : PollOS) (ht : os.timer_ok)
    (hq : os.adjtimex = TIME_ERROR) :
    (io_handler w os).1.calls = w.calls ++
        ([Call.source_unref w.state.event_source]
          ++ (if 0 ≤ w.state.fd then [Call.close w.state.fd] else [])
          ++ [Call.timerfd_create os.timerfd_create,
              Call.timerfd_settime os.timerfd_create 0,
              Call.adjtimex TIME_ERROR,
              Call.add_io os.timerfd_create os.sd_event_add_io])
      ∧ (io_handler w os).1.calls.countP Call.isAddIo = w.calls.countP Call.isAddIo + 1
      ∧ (0 ≤ os.sd_event_add_io →
          (io_handler w os).1.exit_code = w.exit_code
            ∧ (io_handler w os).1.state.event_source = some os.timerfd_create
            ∧ (io_handler w os).2 = os.sd_event_add_io)
      ∧ (os.sd_event_add_io < 0 →
          (io_handler w os).1.exit_code = some os.sd_event_add_io
            ∧ (io_handler w os).1.state.event_source = none
            ∧ (io_handler w os).2 = os.sd_event_add_io) := by
  obtain ⟨h1, h2⟩ := ht
  have hqd : os.queried := by simp [PollOS.queried, h1, h2]
  have hc : (io_handler w os).1.calls = w.calls ++
        ([Call.source_unref w.state.event_source]
          ++ (if 0 ≤ w.state.fd then [Call.close w.state.fd] else [])
          ++ [Call.timerfd_create os.timerfd_create,
              Call.timerfd_settime os.timerfd_create 0,
              Call.adjtimex TIME_ERROR,
              Call.add_io os.timerfd_create os.sd_event_add_io]) := by
    rw [io_handler_calls]
    simp [poll_adjtime, poll_calls, hqd, h1, h2, hq]
  refine ⟨hc, ?_, ?_, ?_⟩
  · rw [hc]
    by_cases hf : 0 ≤ w.state.fd <;>
      simp [List.countP_append, List.countP_cons, Call.isAddIo, hf]
  · intro ha
    have hn : ¬ 0 > os.sd_event_add_io := by omega
    rw [io_handler_exit, io_handler_state, io_handler_rc]
    simp [poll_exit, poll_rc, poll_adjtime, hqd, hq, ha, hn]
  · intro ha
    have hn : ¬ 0 ≤ os.sd_event_add_io := by omega
    rw [io_handler_exit, io_handler_state, io_handler_rc]
    simp [poll_exit, poll_rc, poll_adjtime, hqd, hq, ha, hn]

/-- Witness of C8: a first cycle on descriptor 3 whose registration fails with -9. -/
theorem not_synchronized_cycle_registers_witness :
    (example_poll 3 0 5 (-9)).timer_ok ∧ (example_poll 3 0 5 (-9)).adjtimex = TIME_ERROR
      ∧ (io_handler state_init (example_poll 3 0 5 (-9))).1.calls =
          [Call.source_unref none, Call.timerfd_create 3, Call.timerfd_settime 3 0,
            Call.adjtimex 5, Call.add_io 3 (-9)]
      ∧ (io_handler state_init (example_poll 3 0 5 (-9))).1.exit_code = some (-9)
      ∧ (io_handler state_init (example_poll 3 0 5 (-9))).2 = -9 :=
  ⟨by decide, by decide,
    (not_synchronized_cycle_registers state_init (example_poll 3 0 5 (-9))
      (by decide) (by decide)).1,
    ((not_synchronized_cycle_registers state_init (example_poll 3 0 5 (-9))
      (by decide) (by decide)).2.2.2 (by decide)).1,
    ((not_synchronized_cycle_registers state_init (example_poll 3 0 5 (-9))
      (by decide) (by decide)).2.2.2 (by decide)).2.2⟩

/-- Claim C2: a poll cycle in which the timer is created and armed and the query
returns a non-negative code other than `TIME_ERROR` requests exit with code 0,
returns 0 and makes no `sd_event_add_io` call (its calls are the release, the
timer setup and the query); and in every run no `sd_event_add_io` and no
`timerfd_create` follows a query that returned such a code, so no later poll
cycle arms a wakeup. -/
theorem synchronized_cycle_exits_and_never_rearms :
    (∀ (w : Run) (os : PollOS), os.timer_ok → synchronized os.adjtimex →
        (io_handler w os).1.exit_code = some 0
          ∧ (io_handler w os).2 = 0
          ∧ (io_handler w os).1.state.event_source = none
          ∧ (io_handler w os).1.calls = w.calls ++
              ([Call.source_unref w.state.event_source]
                ++ (if 0 ≤ w.state.fd then [Call.close w.state.fd] else [])
                ++ [Call.timerfd_create os.timerfd_create,
                    Call.timerfd_settime os.timerfd_create 0,
                    Call.adjtimex os.adjtimex]))
      ∧ (∀ (os : MainOS) (p q : List Call) (r : Int),
          (main os).run.calls = p ++ Call.adjtimex r :: q → synchronized r →
          ∀ d ∈ q, d.isAddIo = false ∧ d.isCreate = false) := by
  refine ⟨fun w os ht hs => ?_, fun os p q r hc hr => quiet_split (main_quiet os) p q r hc hr⟩
  obtain ⟨e1, e2, _, e4, e5⟩ := io_handler_sync w os ht hs
  exact ⟨e1, e4, e2, e5⟩

/-- Witness of C2: the clock is synchronized (code 0) at the second poll cycle;
further clock steps are delivered afterwards. -/
theorem synchronized_cycle_exits_and_never_rearms_witness :
    ((example_poll 4 0 0 0).timer_ok ∧ synchronized (example_poll 4 0 0 0).adjtimex
      ∧ (io_handler state_init (example_poll 4 0 0 0)).1.exit_code = some 0
      ∧ (io_handler state_init (example_poll 4 0 0 0)).2 = 0)
    ∧ ((main (example_run (example_poll 3 0 5 0)
          [.io (example_poll 4 0 0 0), .io (example_poll 6 0 5 0)])).run.calls =
        [Call.source_unref none, Call.timerfd_create 3, Call.timerfd_settime 3 0,
          Call.adjtimex 5, Call.add_io 3 0, Call.source_unref (some 3), Call.close 3,
          Call.timerfd_create 4, Call.timerfd_settime 4 0]
          ++ Call.adjtimex 0 :: [Call.close 4, Call.source_unref none]
      ∧ ∀ d ∈ [Call.close 4, Call.source_unref none],
          d.isAddIo = false ∧ d.isCreate = false) :=
  ⟨⟨by decide, by decide,
    (synchronized_cycle_exits_and_never_rearms.1 state_init (example_poll 4 0 0 0)
      (by decide) (by decide)).1,
    (synchronized_cycle_exits_and_never_rearms.1 state_init (example_poll 4 0 0 0)
      (by decide) (by decide)).2.1⟩,
   by decide,
   synchronized_cycle_exits_and_never_rearms.2
      (example_run (example_poll 3 0 5 0)
        [.io (example_poll 4 0 0 0), .io (example_poll 6 0 5 0)])
      [Call.source_unref none, Call.timerfd_create 3, Call.timerfd_settime 3 0,
        Call.adjtimex 5, Call.add_io 3 0, Call.source_unref (some 3), Call.close 3,
        Call.timerfd_create 4, Call.timerfd_settime 4 0]
      [Call.close 4, Call.source_unref none] 0 (by decide) (by decide)⟩

/-- Claim C3: a poll cycle in which the timer is created and armed and the query
returns a negative code `c` requests exit with exactly `c`, returns `c` and
makes no `sd_event_add_io` call; and in every run in which a query returned a
negative code, in the first cycle or in a later one, the process exits with
`EXIT_FAILURE`. -/
theorem failed_query_exits_with_failure :
    (∀ (w : Run) (os : PollOS), os.timer_ok → os.adjtimex < 0 →
        (io_handler w os).1.exit_code = some os.adjtimex
          ∧ (io_handler w os).2 = os.adjtimex
          ∧ (io_handler w os).1.state.event_source = none
          ∧ (io_handler w os).1.calls = w.calls ++
              ([Call.source_unref w.state.event_source]
                ++ (if 0 ≤ w.state.fd then [Call.close w.state.fd] else [])
                ++ [Call.timerfd_create os.timerfd_create,
                    Call.timerfd_settime os.timerfd_create 0,
                    Call.adjtimex os.adjtimex]))
      ∧ (∀ (os : MainOS) (c : Int), c < 0 → Call.adjtimex c ∈ (main os).run.calls →
          (main os).status = some EXIT_FAILURE) := by
  refine ⟨fun w os ht hs => ?_, fun os c hc hm => (main_query_failed os c hc hm).1⟩
  obtain ⟨e1, e2, _, e4, e5⟩ := io_handler_failed w os ht hs
  exact ⟨e1, e4, e2, e5⟩

/-- Witness of C3: the query fails with -5 in the second poll cycle. -/
theorem failed_query_exits_with_failure_witness :
    ((example_poll 4 0 (-5) 0).timer_ok ∧ (example_poll 4 0 (-5) 0).adjtimex < 0
      ∧ (io_handler state_init (example_poll 4 0 (-5) 0)).1.exit_code = some (-5)
      ∧ (io_handler state_init (example_poll 4 0 (-5) 0)).2 = -5)
    ∧ (Call.adjtimex (-5) ∈
          (main (example_run (example_poll 3 0 5 0) [.io (example_poll 4 0 (-5) 0)])).run.calls
      ∧ (main (example_run (example_poll 3 0 5 0) [.io (example_poll 4 0 (-5) 0)])).status
          = some EXIT_FAILURE) :=
  ⟨⟨by decide, by decide,
    (failed_query_exits_with_failure.1 state_init (example_poll 4 0 (-5) 0)
      (by decide) (by decide)).1,
    (failed_query_exits_with_failure.1 state_init (example_poll 4 0 (-5) 0)
      (by decide) (by decide)).2.1⟩,
   by decide,
   failed_query_exits_with_failure.2
      (example_run (example_poll 3 0 5 0) [.io (example_poll 4 0 (-5) 0)]) (-5)
      (by decide) (by decide)⟩

/-- Claim C5: in every run in which the event loop was entered and returned a
non-negative result while no query returned a synchronized code, the recorded
status is still `TIME_ERROR`, the line `event loop terminated without
synchronizing` is written, and the process exits with `EXIT_FAILURE`. -/
theorem loop_exit_without_sync_fails (os : MainOS) (rc : Int)
    (he : (main os).loop_entered = true) (hl : (main os).loop_rc = some rc) (hrc : 0 ≤ rc)
    (hn : ∀ r, Call.adjtimex r ∈ (main os).run.calls → ¬ synchronized r) :
    (main os).run.state.adjtime_state = TIME_ERROR
      ∧ (main os).status = some EXIT_FAILURE
      ∧ LogLine.without_sync ∈ (main os).run.stderr :=
  main_wait os rc he hl hrc hn

/-- Witness of C5: a signal arrives while the program is suspended after one
not synchronized query; the loop returns 0. -/
theorem loop_exit_without_sync_fails_witness :
    (main (example_run (example_poll 3 0 5 0) [.watchdog, .signal])).loop_entered = true
      ∧ (main (example_run (example_poll 3 0 5 0) [.watchdog, .signal])).loop_rc = some 0
      ∧ (main (example_run (example_poll 3 0 5 0) [.watchdog, .signal])).run.state.adjtime_state
          = TIME_ERROR
      ∧ (main (example_run (example_poll 3 0 5 0) [.watchdog, .signal])).status
          = some EXIT_FAILURE
      ∧ LogLine.without_sync
          ∈ (main (example_run (example_poll 3 0 5 0) [.watchdog, .signal])).run.stderr := by
  have hc : (main (example_run (example_poll 3 0 5 0) [.watchdog, .signal])).run.calls =
      [Call.source_unref none, Call.timerfd_create 3, Call.timerfd_settime 3 0,
        Call.adjtimex 5, Call.add_io 3 0, Call.close 3, Call.source_unref (some 3)] := by
    decide
  have hn : ∀ r, Call.adjtimex r
      ∈ (main (example_run (example_poll 3 0 5 0) [.watchdog, .signal])).run.calls →
      ¬ synchronized r := by
    intro r hm
    rw [hc] at hm
    simp at hm
    subst hm
    decide
  exact ⟨by decide, by decide,
    loop_exit_without_sync_fails
      (example_run (example_poll 3 0 5 0) [.watchdog, .signal]) 0
      (by decide) (by decide) (by decide) hn⟩

/-- Claim C4: when every setup call succeeds, the first `k` poll cycles (the
first one run by `main`, the others delivered by the loop) succeed with the
query returning `TIME_ERROR`, and the next cycle arms its timer and gets a
synchronized code, the process exits with `EXIT_SUCCESS` after exactly `k`
`sd_event_add_io` calls, all successful; the event loop is entered exactly
when `k` is not 0. -/
theorem not_synchronized_k_times_then_synchronized (os : MainOS) (cs : List PollOS)
    (f : PollOS) (rest : List LoopEvent) (hsetup : os.setup_ok)
    (hcs : ∀ c ∈ cs, c.ok_with TIME_ERROR) (hf : f.timer_ok) (hs : synchronized f.adjtimex)
    (hev : LoopEvent.io os.first :: os.events = (cs ++ [f]).map LoopEvent.io ++ rest) :
    (main os).status = some EXIT_SUCCESS
      ∧ (main os).run.calls.countP Call.isAddIo = cs.length
      ∧ (main os).run.calls.countP Call.registers = cs.length
      ∧ ((main os).loop_entered = true ↔ cs ≠ []) := by
  have h0 := main_setup_ok os hsetup
  have hne : ¬ TIME_ERROR = f.adjtimex := fun e => hs.2 e.symm
  cases cs with
  | nil =>
    simp only [List.nil_append, List.map_cons, List.map_nil, List.singleton_append,
      List.cons.injEq, LoopEvent.io.injEq] at hev
    obtain ⟨hfirst, _⟩ := hev
    obtain ⟨e1, e2, e3, e4, e5⟩ := io_handler_sync state_init os.first (hfirst ▸ hf)
      (hfirst ▸ hs)
    have h1 : ¬ (0 ≤ (io_handler state_init os.first).2
          ∧ TIME_ERROR = (io_handler state_init os.first).1.state.adjtime_state) := by
      rw [e3, hfirst]
      exact fun h => hne h.2
    rw [main_of_first os h0 h1, main_exit_status, main_exit_calls, main_exit_entered, e4, e5]
    simp [state_init, Call.isAddIo, Call.registers, EXIT_SUCCESS]
  | cons c cs =>
    simp only [List.cons_append, List.map_cons, List.map_append, List.map_nil,
      List.cons.injEq, LoopEvent.io.injEq, List.append_assoc, List.singleton_append] at hev
    obtain ⟨hfirst, hevs⟩ := hev
    have hc1 : os.first.ok_with TIME_ERROR := hfirst ▸ hcs c (List.mem_cons_self _ _)
    have hc2 : ∀ d ∈ cs, d.ok_with TIME_ERROR := fun d hd => hcs d (List.mem_cons_of_mem _ hd)
    obtain ⟨h1, w2, g1, g2, g3, g4, g5, g6, g7, g8, g9, g10, g11⟩ :=
      main_not_sync_cycles os cs (LoopEvent.io f :: rest) hc1 hc2 hevs
    obtain ⟨e1, e2, e3, e4, e5⟩ := io_handler_sync w2 f hf hs
    have hl : sd_event_loop (io_handler state_init os.first).1 os.events
        = ((io_handler w2 f).1, some 0) := by
      rw [g1]
      simp only [sd_event_loop, g2, g3, if_true]
      exact sd_event_loop_exited _ 0 e1 rest
    have hne2 : ¬ TIME_ERROR = (io_handler w2 f).1.state.adjtime_state := by rw [e3]; exact hne
    rw [main_of_loop os h0 h1 _ 0 hl, if_neg (by omega), if_neg hne2, main_exit_status,
      main_exit_calls, main_exit_entered, e5]
    simp [List.countP_append, List.countP_cons, Call.isAddIo, Call.registers, g4, g9, g10,
      EXIT_SUCCESS]

/-- Witness of C4 (Scenario A): the query returns `TIME_ERROR` twice and then
`TIME_OK`, with a clock step delivered after each `TIME_ERROR`. -/
theorem not_synchronized_k_times_then_synchronized_witness :
    (main (example_run (example_poll 3 0 5 0)
        [.io (example_poll 4 0 5 0), .io (example_poll 6 0 0 0)])).status = some EXIT_SUCCESS
      ∧ (main (example_run (example_poll 3 0 5 0)
          [.io (example_poll 4 0 5 0), .io (example_poll 6 0 0 0)])).run.calls.countP
            Call.isAddIo = 2 :=
  ⟨(not_synchronized_k_times_then_synchronized
      (example_run (example_poll 3 0 5 0)
        [.io (example_poll 4 0 5 0), .io (example_poll 6 0 0 0)])
      [example_poll 3 0 5 0, example_poll 4 0 5 0] (example_poll 6 0 0 0) []
      (by decide) (by decide) (by decide) (by decide) (by decide)).1,
   (not_synchronized_k_times_then_synchronized
      (example_run (example_poll 3 0 5 0)
        [.io (example_poll 4 0 5 0), .io (example_poll 6 0 0 0)])
      [example_poll 3 0 5 0, example_poll 4 0 5 0] (example_poll 6 0 0 0) []
      (by decide) (by decide) (by decide) (by decide) (by decide)).2.1⟩

/-- Counterexample to C10: the first query fails with -5; the process exits
with `EXIT_FAILURE` but writes nothing to standard error, so no diagnostic
line contains -5. -/
theorem first_query_failure_is_silent :
    Call.adjtimex (-5) ∈ (main (example_run (example_poll 3 0 (-5) 0) [])).run.calls
      ∧ (main (example_run (example_poll 3 0 (-5) 0) [])).status = some EXIT_FAILURE
      ∧ ¬ ∃ l ∈ (main (example_run (example_poll 3 0 (-5) 0) [])).run.stderr,
          l.code = some (-5) := by
  decide

/-- Claim C10, amended: in every run in which a query returned a negative code
`c` the process exits with `EXIT_FAILURE`; when the event loop was entered the
line `event loop terminated with c` is written, and when the query failed in
the first poll cycle nothing is written to standard error.  In every run the
`adjtime state` lines are, in order, the return values of the queries that did
not fail: a query that returns a non-negative code writes one line holding
that code, a query that fails writes none. -/
theorem failed_query_diagnostics :
    (∀ (os : MainOS) (c : Int), c < 0 → Call.adjtimex c ∈ (main os).run.calls →
        (main os).status = some EXIT_FAILURE
          ∧ ((main os).loop_entered = true →
              LogLine.loop_terminated c ∈ (main os).run.stderr)
          ∧ ((main os).loop_entered = false → (main os).run.stderr = []))
      ∧ (∀ os : MainOS,
          (main os).run.stderr.filterMap LogLine.queryCode
            = (main os).run.calls.filterMap Call.queryCode) :=
  ⟨fun os c hc hm => main_query_failed os c hc hm, fun os => main_log os⟩

/-- Witness of C10 as amended: the query fails with -5 in the second poll cycle. -/
theorem failed_query_diagnostics_witness :
    Call.adjtimex (-5)
        ∈ (main (example_run (example_poll 3 0 5 0) [.io (example_poll 4 0 (-5) 0)])).run.calls
      ∧ (main (example_run (example_poll 3 0 5 0) [.io (example_poll 4 0 (-5) 0)])).status
          = some EXIT_FAILURE
      ∧ LogLine.loop_terminated (-5)
          ∈ (main (example_run (example_poll 3 0 5 0) [.io (example_poll 4 0 (-5) 0)])).run.stderr :=
  ⟨by decide,
   (failed_query_diagnostics.1
      (example_run (example_poll 3 0 5 0) [.io (example_poll 4 0 (-5) 0)]) (-5)
      (by decide) (by decide)).1,
   (failed_query_diagnostics.1
      (example_run (example_poll 3 0 5 0) [.io (example_poll 4 0 (-5) 0)]) (-5)
      (by decide) (by decide)).2.1 (by decide)⟩

/-- Claim C1 fails on the code: when `timerfd_settime` fails in the first poll
cycle the query is skipped, the zero-initialised `adjtime_state` is read as a
synchronized code, and the process exits with `EXIT_SUCCESS` although no query
was performed. -/
theorem exit_success_without_any_query :
    (main (example_run (example_poll 3 (-1) 0 0) [])).status = some EXIT_SUCCESS
      ∧ (main (example_run (example_poll 3 (-1) 0 0) [])).run.calls =
          [Call.source_unref none, Call.timerfd_create 3, Call.timerfd_settime 3 (-1),
            Call.close 3, Call.source_unref none]
      ∧ ∀ c ∈ (main (example_run (example_poll 3 (-1) 0 0) [])).run.calls,
          c.isQuery = false := by
  decide

/-- Claim C6 fails on the code.  When `timerfd_settime` fails in the first poll
cycle, `io_handler` requests exit with 0 and returns 0, and the process exits
with `EXIT_SUCCESS`.  When it fails in a later cycle, the stale `TIME_ERROR`
makes the cycle register an event source on the unarmed timer and return 0: no
exit is requested and the program stays suspended. -/
theorem arm_failure_is_not_fatal :
    ((io_handler state_init (example_poll 3 (-1) 5 0)).1.exit_code = some 0
      ∧ (io_handler state_init (example_poll 3 (-1) 5 0)).2 = 0
      ∧ (main (example_run (example_poll 3 (-1) 5 0) [.signal])).status = some EXIT_SUCCESS
      ∧ (main (example_run (example_poll 3 (-1) 5 0) [.signal])).loop_entered = false)
    ∧ ((main (example_run (example_poll 3 0 5 0) [.io (example_poll 4 (-1) 5 0)])).run.calls =
          [Call.source_unref none, Call.timerfd_create 3, Call.timerfd_settime 3 0,
            Call.adjtimex 5, Call.add_io 3 0, Call.source_unref (some 3), Call.close 3,
            Call.timerfd_create 4, Call.timerfd_settime 4 (-1), Call.add_io 4 0]
      ∧ (main (example_run (example_poll 3 0 5 0)
          [.io (example_poll 4 (-1) 5 0)])).run.state.event_source = some 4
      ∧ (main (example_run (example_poll 3 0 5 0)
          [.io (example_poll 4 (-1) 5 0)])).run.exit_code = none
      ∧ (main (example_run (example_poll 3 0 5 0)
          [.io (example_poll 4 (-1) 5 0)])).status = none) := by
  decide

/-- Claim C7 fails on the code: when `timerfd_create` fails, `rc` stays 0 and
the query is performed all the same.  With a synchronized code the process
exits with `EXIT_SUCCESS`; with `TIME_ERROR` the cycle calls `sd_event_add_io`
on the descriptor -1. -/
theorem create_failure_does_not_stop_the_cycle :
    ((main (example_run (example_poll (-1) 0 0 0) [])).run.calls =
          [Call.source_unref none, Call.timerfd_create (-1), Call.adjtimex 0,
            Call.close (-1), Call.source_unref none]
      ∧ (main (example_run (example_poll (-1) 0 0 0) [])).status = some EXIT_SUCCESS)
    ∧ ((io_handler state_init (example_poll (-1) 0 5 (-9))).1.calls =
          [Call.source_unref none, Call.timerfd_create (-1), Call.adjtimex 5,
            Call.add_io (-1) (-9)]) := by
  decide

end TimeSyncWait
